import Mathlib

/-!
Shallow embedding of the Matter bridge layer of `lumimqtt/matter_bridge.py`
(class `LumiMatter` and class `MatterUDPProtocol`), together with theorems
checking the specification's claims about it.

Conventions of the embedding:
* Python byte strings are `List Nat`, each element a byte value.
* Python strings are `List Char`.
* Fallible operations (`struct.pack` raises on out-of-range arguments) are
  `Option`-valued; `none` corresponds to a raised exception, which the
  UDP handler `datagram_received` catches and answers with no reply.
* Machine integers are `Nat` with explicit masks/moduli where the source
  masks or packs them.
-/

/-- The base-38 alphabet of `LumiMatter._generate_qr_code`
(`"0123456789ABCDEFGHIJKLMNOPQRSTUVWXYZ-."`). -/
def base38Chars : List Char :=
  ['0', '1', '2', '3', '4', '5', '6', '7', '8', '9',
   'A', 'B', 'C', 'D', 'E', 'F', 'G', 'H', 'I', 'J',
   'K', 'L', 'M', 'N', 'O', 'P', 'Q', 'R', 'S', 'T',
   'U', 'V', 'W', 'X', 'Y', 'Z', '-', '.']

/-- Embeds `base38_chars[d]`: the digit character for value `d`. -/
def base38Digit (d : Nat) : Char := base38Chars.getD d '0'

/-- Value of a base-38 digit character (its index in the alphabet). -/
def base38DigitVal (c : Char) : Nat := base38Chars.indexOf c

/-- The `while temp_value > 0` loop of `_generate_qr_code`: repeatedly
prepend `base38_chars[temp_value % 38]` while dividing by 38, producing
the most-significant digit first. -/
def base38Encode (v : Nat) : List Char :=
  if h : v = 0 then []
  else base38Encode (v / 38) ++ [base38Digit (v % 38)]
termination_by v
decreasing_by exact Nat.div_lt_self (Nat.pos_of_ne_zero h) (by decide)

/-- Interpret a list of base-38 digit characters, most significant first. -/
def base38Decode (l : List Char) : Nat :=
  l.foldl (fun acc c => acc * 38 + base38DigitVal c) 0

/-- The `while len(encoded) < 20` padding loop of `_generate_qr_code`:
prepend `"0"` until the string is at least 20 characters long. -/
def padTo20 (l : List Char) : List Char :=
  if l.length < 20 then padTo20 ('0' :: l) else l
termination_by 20 - l.length
decreasing_by simp; omega

/-- The 84-bit packed value of `_generate_qr_code`, built with the source's
`|=` / `&` / `<<` sequence.  The source fixes `version = 0`,
`custom_flow = 0` and `discovery_caps = 0x04` locally. -/
def qrValue (vendorId productId discriminator passcode : Nat) : Nat :=
  0 |||
  ((0 &&& 0x7) <<< 81) |||
  ((vendorId &&& 0xFFFF) <<< 65) |||
  ((productId &&& 0xFFFF) <<< 49) |||
  ((0 &&& 0x3) <<< 47) |||
  ((0x04 &&& 0xFF) <<< 39) |||
  ((discriminator &&& 0xFFF) <<< 27) |||
  (passcode &&& 0x7FFFFFF)

/-- Embeds `LumiMatter._generate_qr_code`: `"MT:"` followed by the base-38
rendering of the packed value, zero-padded to at least 20 characters. -/
def generateQrCode (vendorId productId discriminator passcode : Nat) :
    List Char :=
  ['M', 'T', ':'] ++
    padTo20 (base38Encode (qrValue vendorId productId discriminator passcode))

theorem base38DigitVal_base38Digit : ∀ d, d < 38 →
    base38DigitVal (base38Digit d) = d := by decide

theorem base38Digit_mem : ∀ d, d < 38 → base38Digit d ∈ base38Chars := by
  decide

theorem base38Decode_append_singleton (l : List Char) (c : Char) :
    base38Decode (l ++ [c]) = base38Decode l * 38 + base38DigitVal c := by
  simp [base38Decode, List.foldl_append]

theorem base38Decode_base38Encode (v : Nat) :
    base38Decode (base38Encode v) = v := by
  induction v using Nat.strong_induction_on with
  | _ v ih =>
    rw [base38Encode]
    split
    · simp [base38Decode]; omega
    · rename_i h
      rw [base38Decode_append_singleton,
        ih (v / 38) (Nat.div_lt_self (Nat.pos_of_ne_zero h) (by decide)),
        base38DigitVal_base38Digit _ (Nat.mod_lt _ (by decide))]
      omega

theorem base38Encode_subset (v : Nat) :
    ∀ c ∈ base38Encode v, c ∈ base38Chars := by
  induction v using Nat.strong_induction_on with
  | _ v ih =>
    rw [base38Encode]
    split
    · simp
    · rename_i h
      intro c hc
      rw [List.mem_append] at hc
      rcases hc with hc | hc
      · exact ih (v / 38)
          (Nat.div_lt_self (Nat.pos_of_ne_zero h) (by decide)) c hc
      · rw [List.mem_singleton] at hc
        subst hc
        exact base38Digit_mem _ (Nat.mod_lt _ (by decide))

theorem padTo20_eq (l : List Char) :
    padTo20 l = List.replicate (20 - l.length) '0' ++ l := by
  rw [padTo20]
  split
  · rename_i hl
    rw [padTo20_eq ('0' :: l)]
    have h20 : 20 - l.length = (20 - ('0' :: l).length) + 1 := by
      simp; omega
    rw [h20, List.replicate_succ', List.append_assoc]
    simp
  · rename_i hl
    have : 20 - l.length = 0 := by omega
    rw [this]
    simp
termination_by 20 - l.length
decreasing_by simp; omega

theorem base38Decode_replicate_zero (k : Nat) (l : List Char) :
    base38Decode (List.replicate k '0' ++ l) = base38Decode l := by
  induction k with
  | zero => simp
  | succ n ihn =>
    rw [List.replicate_succ, List.cons_append]
    show base38Decode ('0' :: (List.replicate n '0' ++ l)) = _
    rw [show base38Decode ('0' :: (List.replicate n '0' ++ l)) =
      base38Decode (List.replicate n '0' ++ l) from by
        simp [base38Decode, base38DigitVal, base38Chars]]
    exact ihn

theorem padTo20_length (l : List Char) : 20 ≤ (padTo20 l).length := by
  rw [padTo20_eq]
  simp
  omega

theorem padTo20_decode (l : List Char) :
    base38Decode (padTo20 l) = base38Decode l := by
  rw [padTo20_eq]
  exact base38Decode_replicate_zero _ l

theorem padTo20_subset (l : List Char) (hl : ∀ c ∈ l, c ∈ base38Chars) :
    ∀ c ∈ padTo20 l, c ∈ base38Chars := by
  rw [padTo20_eq]
  intro c hc
  rw [List.mem_append] at hc
  rcases hc with hc | hc
  · rw [List.mem_replicate] at hc
    rw [hc.2]
    decide
  · exact hl c hc

theorem lor_eq_add_aux (i a b : Nat) (hb : b < 2 ^ i) :
    a * 2 ^ i ||| b = a * 2 ^ i + b := by
  rw [Nat.mul_comm]
  exact (Nat.mul_add_lt_is_or hb a).symm

theorem qrValue_eq (vid pid disc pc : Nat)
    (h1 : vid < 2 ^ 16) (h2 : pid < 2 ^ 16)
    (h3 : disc < 2 ^ 12) (h4 : pc < 2 ^ 27) :
    qrValue vid pid disc pc =
      0 * 2 ^ 81 + vid * 2 ^ 65 + pid * 2 ^ 49 + 0 * 2 ^ 47 +
        4 * 2 ^ 39 + disc * 2 ^ 27 + pc := by
  unfold qrValue
  rw [show ((0xFFFF : Nat)) = 2 ^ 16 - 1 from rfl,
    Nat.and_pow_two_sub_one_of_lt_two_pow h1,
    Nat.and_pow_two_sub_one_of_lt_two_pow h2,
    show ((0xFFF : Nat)) = 2 ^ 12 - 1 from rfl,
    Nat.and_pow_two_sub_one_of_lt_two_pow h3,
    show ((0x7FFFFFF : Nat)) = 2 ^ 27 - 1 from rfl,
    Nat.and_pow_two_sub_one_of_lt_two_pow h4]
  rw [show ((0 : Nat) &&& 0x7) <<< 81 = 0 from rfl,
    show ((0 : Nat) &&& 0x3) <<< 47 = 0 from rfl,
    show ((0x04 : Nat) &&& 0xFF) <<< 39 = 4 <<< 39 from rfl]
  rw [Nat.zero_or, Nat.zero_or, Nat.or_zero]
  rw [Nat.shiftLeft_eq, Nat.shiftLeft_eq, Nat.shiftLeft_eq,
    Nat.shiftLeft_eq]
  have e1 : vid * 2 ^ 65 ||| pid * 2 ^ 49 = vid * 2 ^ 65 + pid * 2 ^ 49 := by
    apply lor_eq_add_aux
    calc pid * 2 ^ 49 < 2 ^ 16 * 2 ^ 49 :=
          mul_lt_mul_of_pos_right h2 (by positivity)
      _ = 2 ^ 65 := by norm_num
  rw [e1]
  have f2 : vid * 2 ^ 65 + pid * 2 ^ 49 =
      (vid * 2 ^ 16 + pid) * 2 ^ 49 := by ring
  rw [f2]
  have e2 : (vid * 2 ^ 16 + pid) * 2 ^ 49 ||| 4 * 2 ^ 39 =
      (vid * 2 ^ 16 + pid) * 2 ^ 49 + 4 * 2 ^ 39 := by
    apply lor_eq_add_aux
    norm_num
  rw [e2]
  have f3 : (vid * 2 ^ 16 + pid) * 2 ^ 49 + 4 * 2 ^ 39 =
      (vid * 2 ^ 26 + pid * 2 ^ 10 + 4) * 2 ^ 39 := by ring
  rw [f3]
  have e3 : (vid * 2 ^ 26 + pid * 2 ^ 10 + 4) * 2 ^ 39 ||| disc * 2 ^ 27 =
      (vid * 2 ^ 26 + pid * 2 ^ 10 + 4) * 2 ^ 39 + disc * 2 ^ 27 := by
    apply lor_eq_add_aux
    calc disc * 2 ^ 27 < 2 ^ 12 * 2 ^ 27 :=
          mul_lt_mul_of_pos_right h3 (by positivity)
      _ = 2 ^ 39 := by norm_num
  rw [e3]
  have f4 : (vid * 2 ^ 26 + pid * 2 ^ 10 + 4) * 2 ^ 39 + disc * 2 ^ 27 =
      (vid * 2 ^ 38 + pid * 2 ^ 22 + 4 * 2 ^ 12 + disc) * 2 ^ 27 := by ring
  rw [f4]
  have e4 : (vid * 2 ^ 38 + pid * 2 ^ 22 + 4 * 2 ^ 12 + disc) * 2 ^ 27 ||| pc =
      (vid * 2 ^ 38 + pid * 2 ^ 22 + 4 * 2 ^ 12 + disc) * 2 ^ 27 + pc :=
    lor_eq_add_aux _ _ _ h4
  rw [e4]
  ring

/-- Decimal digit character for value `d` (0-9), as produced by Python's
`"{:011d}".format`. -/
def decimalDigitChar (d : Nat) : Char :=
  ['0', '1', '2', '3', '4', '5', '6', '7', '8', '9'].getD d '0'

/-- Decimal digits of a positive number, most significant first. -/
def decimalDigitsAux (v : Nat) : List Char :=
  if h : v = 0 then []
  else decimalDigitsAux (v / 10) ++ [decimalDigitChar (v % 10)]
termination_by v
decreasing_by exact Nat.div_lt_self (Nat.pos_of_ne_zero h) (by decide)

/-- Python's `"%d"` rendering of a natural number (`"0"` for zero). -/
def decimalString (v : Nat) : List Char :=
  if v = 0 then ['0'] else decimalDigitsAux v

/-- The zero padding of Python's `f"{value:011d}"`: left-pad with `'0'`
to a minimum width of 11. -/
def padTo11 (l : List Char) : List Char :=
  List.replicate (11 - l.length) '0' ++ l

/-- The manual pairing code of `LumiMatter._display_pairing_info`:
`f"{passcode:011d}"` sliced as `s[0:4] + "-" + s[4:7] + "-" + s[7:11]`. -/
def manualPairingCode (passcode : Nat) : List Char :=
  let s := padTo11 (decimalString passcode)
  s.take 4 ++ '-' :: ((s.drop 4).take 3 ++ '-' :: (s.drop 7).take 4)

/-- Numeric value of a decimal digit character. -/
def decimalVal (c : Char) : Nat := c.toNat - 48

/-- Interpret a list of decimal digit characters, most significant first. -/
def decimalDecode (l : List Char) : Nat :=
  l.foldl (fun acc c => acc * 10 + decimalVal c) 0

theorem decimalVal_decimalDigitChar : ∀ d, d < 10 →
    decimalVal (decimalDigitChar d) = d := by decide

theorem decimalDigitChar_isDigit : ∀ d, d < 10 →
    (decimalDigitChar d).isDigit = true := by decide

theorem decimalDecode_append_singleton (l : List Char) (c : Char) :
    decimalDecode (l ++ [c]) = decimalDecode l * 10 + decimalVal c := by
  simp [decimalDecode, List.foldl_append]

theorem decimalDecode_decimalDigitsAux (v : Nat) :
    decimalDecode (decimalDigitsAux v) = v := by
  induction v using Nat.strong_induction_on with
  | _ v ih =>
    rw [decimalDigitsAux]
    split
    · simp [decimalDecode]; omega
    · rename_i h
      rw [decimalDecode_append_singleton,
        ih (v / 10) (Nat.div_lt_self (Nat.pos_of_ne_zero h) (by decide)),
        decimalVal_decimalDigitChar _ (Nat.mod_lt _ (by decide))]
      omega

theorem decimalDecode_decimalString (v : Nat) :
    decimalDecode (decimalString v) = v := by
  rw [decimalString]
  split
  · rename_i h
    subst h
    decide
  · exact decimalDecode_decimalDigitsAux v

theorem decimalDecode_replicate_zero (k : Nat) (l : List Char) :
    decimalDecode (List.replicate k '0' ++ l) = decimalDecode l := by
  induction k with
  | zero => simp
  | succ n ihn =>
    rw [List.replicate_succ, List.cons_append]
    show decimalDecode ('0' :: (List.replicate n '0' ++ l)) = _
    rw [show decimalDecode ('0' :: (List.replicate n '0' ++ l)) =
      decimalDecode (List.replicate n '0' ++ l) from by
        simp [decimalDecode, decimalVal]]
    exact ihn

theorem decimalDigitsAux_length (v : Nat) :
    ∀ k, v < 10 ^ k → (decimalDigitsAux v).length ≤ k := by
  induction v using Nat.strong_induction_on with
  | _ v ih =>
    intro k hk
    rw [decimalDigitsAux]
    split
    · simp
    · rename_i h
      cases k with
      | zero => simp at hk; omega
      | succ n =>
        have hd : v / 10 < 10 ^ n := by
          rw [Nat.div_lt_iff_lt_mul (by decide)]
          calc v < 10 ^ (n + 1) := hk
            _ = 10 ^ n * 10 := by ring
        have := ih (v / 10)
          (Nat.div_lt_self (Nat.pos_of_ne_zero h) (by decide)) n hd
        simp
        omega

theorem decimalDigitsAux_isDigit (v : Nat) :
    ∀ c ∈ decimalDigitsAux v, c.isDigit := by
  induction v using Nat.strong_induction_on with
  | _ v ih =>
    rw [decimalDigitsAux]
    split
    · simp
    · rename_i h
      intro c hc
      rw [List.mem_append] at hc
      rcases hc with hc | hc
      · exact ih (v / 10)
          (Nat.div_lt_self (Nat.pos_of_ne_zero h) (by decide)) c hc
      · rw [List.mem_singleton] at hc
        subst hc
        exact decimalDigitChar_isDigit _ (Nat.mod_lt _ (by decide))

theorem decimalString_isDigit (v : Nat) :
    ∀ c ∈ decimalString v, c.isDigit := by
  rw [decimalString]
  split
  · intro c hc
    rw [List.mem_singleton] at hc
    subst hc
    decide
  · exact decimalDigitsAux_isDigit v

/-- The parsed Matter message of `MatterUDPProtocol._parse_matter_message`:
`{flags, session_id, security_flags, message_counter, payload}`. -/
structure MatterMessage where
  flags : Nat
  session_id : Nat
  security_flags : Nat
  message_counter : Nat
  payload : List Nat
deriving DecidableEq

/-- Embeds `MatterUDPProtocol._parse_matter_message`: raises (`none`) on fewer
than 8 bytes; otherwise flags (byte 0), little-endian session ID
(bytes 1-2), security flags (byte 3), little-endian message counter
(bytes 4-7), payload (bytes 8+). -/
def parseMatterMessage (data : List Nat) : Option MatterMessage :=
  if data.length < 8 then none
  else some
    { flags := data.getD 0 0
      session_id := data.getD 1 0 + 256 * data.getD 2 0
      security_flags := data.getD 3 0
      message_counter := data.getD 4 0 + 256 * data.getD 5 0 +
        65536 * data.getD 6 0 + 16777216 * data.getD 7 0
      payload := data.drop 8 }

/-- Python `struct.pack('<BHB', flags, session_id, security_flags)`:
raises (`none`) when an argument is out of range for its format code. -/
def packBHB (flags session_id security_flags : Nat) : Option (List Nat) :=
  if flags < 256 ∧ session_id < 65536 ∧ security_flags < 256 then
    some [flags, session_id % 256, session_id / 256, security_flags]
  else none

/-- Python `struct.pack('<I', counter)`: raises (`none`) when the counter
does not fit in 32 bits. -/
def packI (counter : Nat) : Option (List Nat) :=
  if counter < 4294967296 then
    some [counter % 256, counter / 256 % 256, counter / 65536 % 256,
      counter / 16777216 % 256]
  else none

/-- Python `struct.pack('<B', status)`. -/
def packB (status : Nat) : Option (List Nat) :=
  if status < 256 then some [status] else none

/-- The message serialization shared by `_build_pase_response` and
`_build_status_response`: `pack('<BHB', ...) + pack('<I', ...) + payload`. -/
def buildMessage (flags session_id security_flags message_counter : Nat)
    (payload : List Nat) : Option (List Nat) :=
  match packBHB flags session_id security_flags, packI message_counter with
  | some header, some counter => some (header ++ counter ++ payload)
  | _, _ => none

/-- Embeds `MatterUDPProtocol._build_pase_response`: flags `0x00`, session ID 0,
security flags `0x00`, the request's counter plus one, and the fixed
payload `b'\x15\x30\x01\x00'`. -/
def buildPaseResponse (request : MatterMessage) : Option (List Nat) :=
  buildMessage 0x00 0 0x00 (request.message_counter + 1)
    [0x15, 0x30, 0x01, 0x00]

/-- Embeds `MatterUDPProtocol._build_status_response`: flags `0x00`, the request's
session ID, security flags `0x00`, the request's counter plus one, and the
single status byte as payload. -/
def buildStatusResponse (request : MatterMessage) (status : Nat) :
    Option (List Nat) :=
  match packB status with
  | some payload =>
      buildMessage 0x00 request.session_id 0x00
        (request.message_counter + 1) payload
  | none => none

/-- Embeds `MatterUDPProtocol._handle_commissioning_message`: a payload under
4 bytes is answered with failure status `0x01`; otherwise the stub PASE
acknowledgment is returned. -/
def handleCommissioningMessage (message : MatterMessage) :
    Option (List Nat) :=
  if message.payload.length < 4 then buildStatusResponse message 0x01
  else buildPaseResponse message

/-- Embeds `MatterUDPProtocol._handle_matter_message`: session ID 0 goes to the
commissioning handler; any other session is logged and answered with
`None` (no reply). -/
def handleMatterMessage (message : MatterMessage) : Option (List Nat) :=
  if message.session_id = 0 then handleCommissioningMessage message
  else none

/-- Embeds `MatterUDPProtocol.datagram_received` without the socket I/O: parse,
then handle; any raised error (`none` from a stage) is caught and results
in no reply.  Nothing in this path mutates bridge state. -/
def datagramResponse (data : List Nat) : Option (List Nat) :=
  match parseMatterMessage data with
  | none => none
  | some message => handleMatterMessage message

/-- The device variants the bridge distinguishes (`isinstance` checks on
the `Light` and `Button` classes); the carried number stands for object
identity. -/
inductive Device where
  | light : Nat → Device
  | button : Nat → Device
deriving DecidableEq

/-- The `MatterDeviceType` constants. -/
def ROOT_NODE : Nat := 0x0016

def EXTENDED_COLOR_LIGHT : Nat := 0x010D

def GENERIC_SWITCH : Nat := 0x000F

/-- The `MatterCluster` constants. -/
def DESCRIPTOR : Nat := 0x001D

def IDENTIFY : Nat := 0x0003

def ON_OFF : Nat := 0x0006

def LEVEL_CONTROL : Nat := 0x0008

def COLOR_CONTROL : Nat := 0x0300

def SWITCH : Nat := 0x003B

/-- The `MatterEndpoint` dataclass. -/
structure MatterEndpoint where
  endpoint_id : Nat
  device_type : Nat
  clusters : List Nat
  device : Option Device
deriving DecidableEq

/-- The device/endpoint storage of `LumiMatter`. -/
structure BridgeState where
  lights : List Device
  buttons : List Device
  endpoints : List MatterEndpoint
deriving DecidableEq

/-- Embeds `LumiMatter.__init__` and `_setup_root_endpoint`: empty device lists and
the root endpoint 0 (Descriptor and Identify clusters, no device). -/
def initBridgeState : BridgeState :=
  { lights := []
    buttons := []
    endpoints := [{ endpoint_id := 0
                    device_type := ROOT_NODE
                    clusters := [DESCRIPTOR, IDENTIFY]
                    device := none }] }

/-- Embeds `LumiMatter.register`: no-op on an absent device; otherwise the next
endpoint ID is `len(endpoints)` and the endpoint/category lists are
extended according to the device variant. -/
def register (device : Option Device) (s : BridgeState) : BridgeState :=
  match device with
  | none => s
  | some d =>
    let endpointId := s.endpoints.length
    match d with
    | Device.light _ =>
      { s with
        lights := s.lights ++ [d]
        endpoints := s.endpoints ++
          [{ endpoint_id := endpointId
             device_type := EXTENDED_COLOR_LIGHT
             clusters := [DESCRIPTOR, IDENTIFY, ON_OFF, LEVEL_CONTROL,
               COLOR_CONTROL]
             device := some d }] }
    | Device.button _ =>
      { s with
        buttons := s.buttons ++ [d]
        endpoints := s.endpoints ++
          [{ endpoint_id := endpointId
             device_type := GENERIC_SWITCH
             clusters := [DESCRIPTOR, IDENTIFY, SWITCH]
             device := some d }] }

/-- The `args` dict of `handle_light_command`; a missing key makes
`args.get(key, default)` return the default. -/
structure CommandArgs where
  level : Option Nat := none
  transition_time : Option Nat := none
  hue : Option Nat := none
  saturation : Option Nat := none

/-- A call to `light.set(...)` issued by the dispatcher, with the settings
payload and the transition time in seconds. -/
inductive LightOp where
  | setState : Bool → ℚ → LightOp
  | setBrightness : Nat → ℚ → LightOp
  | setColor : Int → Int → Int → ℚ → LightOp
deriving DecidableEq

/-- Python `int(x)` on a rational: truncation toward zero. -/
def pyInt (q : ℚ) : Int := q.num.tdiv q.den

/-- CPython's `colorsys.hsv_to_rgb` (all inputs scaled to `[0, 1]`),
transcribed over exact rationals. -/
def colorsysHsvToRgb (h s v : ℚ) : ℚ × ℚ × ℚ :=
  if s = 0 then (v, v, v)
  else
    let i0 : Int := pyInt (h * 6)
    let f : ℚ := h * 6 - i0
    let p : ℚ := v * (1 - s)
    let q : ℚ := v * (1 - s * f)
    let t : ℚ := v * (1 - s * (1 - f))
    let i : Int := i0 % 6
    if i = 0 then (v, t, p)
    else if i = 1 then (q, v, p)
    else if i = 2 then (p, v, t)
    else if i = 3 then (p, q, v)
    else if i = 4 then (t, p, v)
    else (v, p, q)

/-- Embeds `LumiMatter._hsv_to_rgb`: hue in degrees, saturation/value in percent;
each RGB channel is `int(x * 255)`. -/
def hsvToRgb (h s v : ℚ) : Int × Int × Int :=
  let rgb := colorsysHsvToRgb (h / 360) (s / 100) (v / 100)
  (pyInt (rgb.1 * 255), pyInt (rgb.2.1 * 255), pyInt (rgb.2.2 * 255))

/-- Embeds `LumiMatter.handle_light_command`, returning the list of `light.set`
calls it issues.  `lightOn` supplies the current `state['state'] == 'ON'`
reading used by Toggle.  The Python function always returns `None`, so it
never produces a network reply; an empty list is exactly "no device
operation and no state change". -/
def handleLightCommand (s : BridgeState) (lightOn : Nat → Bool)
    (endpointId clusterId commandId : Nat) (args : CommandArgs) :
    List LightOp :=
  match s.endpoints.find? (fun ep => ep.endpoint_id == endpointId) with
  | none => []
  | some ep =>
    match ep.device with
    | some (Device.light lid) =>
      if clusterId = ON_OFF then
        if commandId = 0x00 then [LightOp.setState false 0]
        else if commandId = 0x01 then [LightOp.setState true 0]
        else if commandId = 0x02 then
          [LightOp.setState (!lightOn lid) 0]
        else []
      else if clusterId = LEVEL_CONTROL then
        if commandId = 0x00 then
          [LightOp.setBrightness (args.level.getD 255)
            ((args.transition_time.getD 0 : ℚ) / 10)]
        else []
      else if clusterId = COLOR_CONTROL then
        if commandId = 0x47 then
          let hue : ℚ := (args.hue.getD 0 : ℚ)
          let saturation : ℚ := (args.saturation.getD 0 : ℚ)
          let rgb := hsvToRgb (hue / 254 * 360) (saturation / 254 * 100) 100
          [LightOp.setColor rgb.1 rgb.2.1 rgb.2.2 0]
        else []
      else []
    | _ => []

theorem buildMessage_parse (flags sid sec ctr : Nat) (payload : List Nat)
    (h1 : flags < 256) (h2 : sid < 65536) (h3 : sec < 256)
    (h4 : ctr < 4294967296) :
    ∃ msg, buildMessage flags sid sec ctr payload = some msg ∧
      msg.length = 8 + payload.length ∧
      parseMatterMessage msg = some ⟨flags, sid, sec, ctr, payload⟩ := by
  have hb : packBHB flags sid sec =
      some [flags, sid % 256, sid / 256, sec] := by
    simp [packBHB, h1, h2, h3]
  have hi : packI ctr =
      some [ctr % 256, ctr / 256 % 256, ctr / 65536 % 256,
        ctr / 16777216 % 256] := by
    simp [packI, h4]
  refine ⟨_, by rw [buildMessage, hb, hi], ?_, ?_⟩
  · simp
    omega
  · rw [show ([flags, sid % 256, sid / 256, sec] ++
        [ctr % 256, ctr / 256 % 256, ctr / 65536 % 256,
          ctr / 16777216 % 256] ++ payload) =
        flags :: (sid % 256) :: (sid / 256) :: sec :: (ctr % 256) ::
          (ctr / 256 % 256) :: (ctr / 65536 % 256) ::
          (ctr / 16777216 % 256) :: payload from by simp]
    rw [parseMatterMessage,
      if_neg (by simp only [List.length_cons]; omega)]
    simp only [Option.some.injEq, MatterMessage.mk.injEq, List.getD_cons_zero,
      List.getD_cons_succ, List.drop_succ_cons, List.drop_zero]
    refine ⟨?_, ?_, ?_, ?_, ?_⟩ <;> first | trivial | omega

/-- C3: for well-formed header fields (flags and security flags one byte,
session ID two bytes, counter four bytes) and any payload, building a
message and parsing the result returns exactly the original fields and
payload, and the built message is 8 bytes plus the payload. -/
theorem build_parse_roundtrip (flags sid sec ctr : Nat) (payload : List Nat)
    (h1 : flags < 256) (h2 : sid < 65536) (h3 : sec < 256)
    (h4 : ctr < 4294967296) :
    ∃ msg, buildMessage flags sid sec ctr payload = some msg ∧
      msg.length = 8 + payload.length ∧
      parseMatterMessage msg = some ⟨flags, sid, sec, ctr, payload⟩ :=
  buildMessage_parse flags sid sec ctr payload h1 h2 h3 h4

theorem build_parse_roundtrip_witness :
    (3 : Nat) < 256 ∧ (770 : Nat) < 65536 ∧ (7 : Nat) < 256 ∧
      (305419896 : Nat) < 4294967296 ∧
      ∃ msg, buildMessage 3 770 7 305419896 [202, 254] = some msg ∧
        msg.length = 8 + ([202, 254] : List Nat).length ∧
        parseMatterMessage msg = some ⟨3, 770, 7, 305419896, [202, 254]⟩ :=
  ⟨by decide, by decide, by decide, by decide,
    build_parse_roundtrip 3 770 7 305419896 [202, 254]
      (by decide) (by decide) (by decide) (by decide)⟩

/-- C4: a buffer under 8 bytes fails to parse (the raised `ValueError` is
caught by `datagram_received`, so no reply is produced and no state is
touched); a buffer of exactly 8 bytes parses with an empty payload. -/
theorem parse_frame_length (data : List Nat) :
    (data.length < 8 →
      parseMatterMessage data = none ∧ datagramResponse data = none) ∧
    (data.length = 8 →
      ∃ m, parseMatterMessage data = some m ∧ m.payload = []) := by
  constructor
  · intro h
    have hp : parseMatterMessage data = none := by
      rw [parseMatterMessage, if_pos h]
    exact ⟨hp, by rw [datagramResponse, hp]⟩
  · intro h
    refine ⟨_, by rw [parseMatterMessage, if_neg (by omega)], ?_⟩
    exact List.drop_eq_nil_of_le (by omega)

theorem parse_frame_length_witness :
    (([0, 0, 0, 0, 0, 0, 0] : List Nat).length < 8 ∧
      (parseMatterMessage [0, 0, 0, 0, 0, 0, 0] = none ∧
        datagramResponse [0, 0, 0, 0, 0, 0, 0] = none)) ∧
    (([1, 2, 3, 4, 5, 6, 7, 8] : List Nat).length = 8 ∧
      ∃ m, parseMatterMessage [1, 2, 3, 4, 5, 6, 7, 8] = some m ∧
        m.payload = []) :=
  ⟨⟨by decide, (parse_frame_length _).1 (by decide)⟩,
    ⟨by decide, (parse_frame_length _).2 (by decide)⟩⟩

/-- C5 counterexample: the claim fails at the parsed message with
session ID 0, a 4-byte payload and message counter `0xFFFFFFFF`
(reachable from the shown 12-byte datagram): `struct.pack('<I', counter+1)`
raises, `datagram_received` catches the error, and no reply at all is
produced — in particular no acknowledgment. -/
theorem commissioning_ack_counterexample :
    parseMatterMessage [0, 0, 0, 0, 255, 255, 255, 255, 0, 0, 0, 0] =
      some ⟨0, 0, 0, 4294967295, [0, 0, 0, 0]⟩ ∧
    handleMatterMessage ⟨0, 0, 0, 4294967295, [0, 0, 0, 0]⟩ = none := by
  decide

/-- C5 (amended): for every parsed message with session ID 0, a payload of
at least 4 bytes and a message counter below `2^32 - 1`, the commissioning
handler replies with the fixed minimal acknowledgment — constant flags
`0x00`, session ID 0, constant payload `b'\x15\x30\x01\x00'` — whose
32-bit counter field is the request's counter plus one; at counter
`2^32 - 1` building the reply fails and no reply is sent. -/
theorem commissioning_ack (m : MatterMessage) (hs : m.session_id = 0)
    (hp : 4 ≤ m.payload.length) (hc : m.message_counter < 4294967295) :
    ∃ r, handleMatterMessage m = some r ∧
      parseMatterMessage r =
        some ⟨0x00, 0, 0x00, m.message_counter + 1,
          [0x15, 0x30, 0x01, 0x00]⟩ := by
  obtain ⟨msg, hbuild, hlen, hparse⟩ :=
    buildMessage_parse 0 0 0 (m.message_counter + 1) [0x15, 0x30, 0x01, 0x00]
      (by omega) (by omega) (by omega) (by omega)
  refine ⟨msg, ?_, hparse⟩
  rw [handleMatterMessage, if_pos hs, handleCommissioningMessage,
    if_neg (by omega), buildPaseResponse]
  exact hbuild

theorem commissioning_ack_witness :
    (⟨0, 0, 0, 41, [1, 2, 3, 4]⟩ : MatterMessage).session_id = 0 ∧
      4 ≤ (⟨0, 0, 0, 41, [1, 2, 3, 4]⟩ : MatterMessage).payload.length ∧
      (⟨0, 0, 0, 41, [1, 2, 3, 4]⟩ : MatterMessage).message_counter <
        4294967295 ∧
      ∃ r, handleMatterMessage ⟨0, 0, 0, 41, [1, 2, 3, 4]⟩ = some r ∧
        parseMatterMessage r = some ⟨0x00, 0, 0x00, 41 + 1,
          [0x15, 0x30, 0x01, 0x00]⟩ :=
  ⟨by decide, by decide, by decide,
    commissioning_ack ⟨0, 0, 0, 41, [1, 2, 3, 4]⟩
      (by decide) (by decide) (by decide)⟩

/-- C6 counterexample: the claim fails at the parsed message with
session ID 0, an empty payload and message counter `0xFFFFFFFF`
(reachable from the shown 8-byte datagram): building the failure-status
reply raises in `struct.pack('<I', counter+1)` and no reply is produced. -/
theorem commissioning_failure_counterexample :
    parseMatterMessage [0, 0, 0, 0, 255, 255, 255, 255] =
      some ⟨0, 0, 0, 4294967295, []⟩ ∧
    handleMatterMessage ⟨0, 0, 0, 4294967295, []⟩ = none := by
  decide

/-- C6 (amended): for every parsed message with session ID 0, a payload
under 4 bytes and a message counter below `2^32 - 1`, the commissioning
handler answers with a failure-status reply whose payload is the single
byte `0x01`; the condition is never fatal to the bridge (the handler is
total — at counter `2^32 - 1` the raised pack error is caught and merely
no reply is sent). -/
theorem commissioning_failure_status (m : MatterMessage)
    (hs : m.session_id = 0) (hp : m.payload.length < 4)
    (hc : m.message_counter < 4294967295) :
    ∃ r, handleMatterMessage m = some r ∧
      parseMatterMessage r =
        some ⟨0x00, 0, 0x00, m.message_counter + 1, [0x01]⟩ := by
  obtain ⟨msg, hbuild, hlen, hparse⟩ :=
    buildMessage_parse 0 0 0 (m.message_counter + 1) [0x01]
      (by omega) (by omega) (by omega) (by omega)
  refine ⟨msg, ?_, hparse⟩
  rw [handleMatterMessage, if_pos hs, handleCommissioningMessage,
    if_pos hp, buildStatusResponse,
    show packB 0x01 = some [0x01] from rfl, hs]
  exact hbuild

theorem commissioning_failure_status_witness :
    (⟨0, 0, 0, 9, [7]⟩ : MatterMessage).session_id = 0 ∧
      (⟨0, 0, 0, 9, [7]⟩ : MatterMessage).payload.length < 4 ∧
      (⟨0, 0, 0, 9, [7]⟩ : MatterMessage).message_counter < 4294967295 ∧
      ∃ r, handleMatterMessage ⟨0, 0, 0, 9, [7]⟩ = some r ∧
        parseMatterMessage r = some ⟨0x00, 0, 0x00, 9 + 1, [0x01]⟩ :=
  ⟨by decide, by decide, by decide,
    commissioning_failure_status ⟨0, 0, 0, 9, [7]⟩
      (by decide) (by decide) (by decide)⟩

/-- C10: a parsed message whose session ID is not 0 is answered with
`None`: the handler's non-commissioning branch only logs and returns, so
no reply is sent and no endpoint lookup, dispatch or device operation is
reached (the dispatcher is not invoked anywhere on this path). -/
theorem operational_message_dropped (m : MatterMessage)
    (h : m.session_id ≠ 0) : handleMatterMessage m = none := by
  rw [handleMatterMessage, if_neg h]

theorem operational_message_dropped_witness :
    (⟨0, 17, 0, 3, [1, 2, 3, 4]⟩ : MatterMessage).session_id ≠ 0 ∧
      handleMatterMessage ⟨0, 17, 0, 3, [1, 2, 3, 4]⟩ = none :=
  ⟨by decide, operational_message_dropped _ (by decide)⟩

/-- C7: from a fresh bridge, registering a Light and then a Button yields
exactly the root endpoint 0 (no device), endpoint 1 as an Extended Color
Light with Descriptor/Identify/OnOff/LevelControl/ColorControl holding the
light, and endpoint 2 as a Generic Switch with Descriptor/Identify/Switch
holding the button; the lights list is exactly the light and the buttons
list exactly the button. -/
theorem register_light_then_button (l b : Nat) :
    register (some (Device.button b))
        (register (some (Device.light l)) initBridgeState) =
      { lights := [Device.light l]
        buttons := [Device.button b]
        endpoints :=
          [{ endpoint_id := 0
             device_type := ROOT_NODE
             clusters := [DESCRIPTOR, IDENTIFY]
             device := none },
           { endpoint_id := 1
             device_type := EXTENDED_COLOR_LIGHT
             clusters := [DESCRIPTOR, IDENTIFY, ON_OFF, LEVEL_CONTROL,
               COLOR_CONTROL]
             device := some (Device.light l) },
           { endpoint_id := 2
             device_type := GENERIC_SWITCH
             clusters := [DESCRIPTOR, IDENTIFY, SWITCH]
             device := some (Device.button b) }] } := rfl

/-- C8: a light-cluster command addressed to an endpoint ID that resolves
to no endpoint, or to an endpoint whose device is not a Light, performs no
`light.set` call (so no device state changes), and the Python function
returns `None` on every path, so no reply is produced. -/
theorem light_command_invalid_target (s : BridgeState) (lightOn : Nat → Bool)
    (endpointId clusterId commandId : Nat) (args : CommandArgs)
    (h : ∀ ep, s.endpoints.find? (fun e => e.endpoint_id == endpointId) =
        some ep → ∀ lid, ep.device ≠ some (Device.light lid)) :
    handleLightCommand s lightOn endpointId clusterId commandId args = [] := by
  rcases hf : s.endpoints.find? (fun e => e.endpoint_id == endpointId)
    with _ | ep
  · simp [handleLightCommand, hf]
  · rcases hd : ep.device with _ | d
    · simp [handleLightCommand, hf, hd]
    · cases d with
      | light lid => exact absurd hd (h ep hf lid)
      | button bid => simp [handleLightCommand, hf, hd]

theorem light_command_invalid_target_witness :
    (∀ ep, initBridgeState.endpoints.find? (fun e => e.endpoint_id == 5) =
        some ep → ∀ lid, ep.device ≠ some (Device.light lid)) ∧
      handleLightCommand initBridgeState (fun _ => false) 5 ON_OFF 1 {} =
        [] :=
  ⟨fun ep hep => (nomatch hep),
    light_command_invalid_target initBridgeState (fun _ => false) 5 ON_OFF 1
      {} (fun ep hep => (nomatch hep))⟩

/-- C9: dispatching ColorControl command 0x47 (MoveToHueAndSaturation) on
the light endpoint with hue 0 and saturation 254 issues exactly one
`light.set` with color RGB (255, 0, 0), and with hue 127 and saturation
254 exactly one with RGB (0, 255, 255).  The conversion is the source's
`hue / 254 * 360`, `saturation / 254 * 100`, value 100, followed by
`colorsys.hsv_to_rgb` and `int(channel * 255)`; on these inputs every
intermediate Python float operation is exact (each result is a
representable binary fraction), so the exact-rational embedding computes
the same values the float code does. -/
theorem color_command_red_and_cyan (lightOn : Nat → Bool) (l : Nat) :
    handleLightCommand (register (some (Device.light l)) initBridgeState)
        lightOn 1 COLOR_CONTROL 0x47
        { hue := some 0, saturation := some 254 } =
      [LightOp.setColor 255 0 0 0] ∧
    handleLightCommand (register (some (Device.light l)) initBridgeState)
        lightOn 1 COLOR_CONTROL 0x47
        { hue := some 127, saturation := some 254 } =
      [LightOp.setColor 0 255 255 0] := by
  constructor <;>
    · norm_num [handleLightCommand, register, initBridgeState, List.find?,
        ON_OFF, LEVEL_CONTROL, COLOR_CONTROL, hsvToRgb, colorsysHsvToRgb,
        pyInt]
      rfl

/-- C1: for all field values within their bit widths, the QR payload is
`"MT:"` followed by a base-38 string (alphabet `0-9A-Z-.`) of at least 20
characters whose base-38 value is exactly the 84-bit integer packed as
version:3 | vendor_id:16 | product_id:16 | custom_flow:2 |
discovery_caps:8 | discriminator:12 | passcode:27 with version at the
most-significant end (the source fixes version 0, custom flow 0 and
discovery capabilities 4). -/
theorem qr_payload_roundtrip (vid pid disc pc : Nat)
    (h1 : vid < 2 ^ 16) (h2 : pid < 2 ^ 16)
    (h3 : disc < 2 ^ 12) (h4 : pc < 2 ^ 27) :
    ∃ s : List Char,
      generateQrCode vid pid disc pc = ['M', 'T', ':'] ++ s ∧
      20 ≤ s.length ∧
      (∀ c ∈ s, c ∈ base38Chars) ∧
      base38Decode s =
        0 * 2 ^ 81 + vid * 2 ^ 65 + pid * 2 ^ 49 + 0 * 2 ^ 47 +
          4 * 2 ^ 39 + disc * 2 ^ 27 + pc := by
  refine ⟨padTo20 (base38Encode (qrValue vid pid disc pc)), rfl,
    padTo20_length _, padTo20_subset _ (base38Encode_subset _), ?_⟩
  rw [padTo20_decode, base38Decode_base38Encode,
    qrValue_eq vid pid disc pc h1 h2 h3 h4]

theorem qr_payload_roundtrip_witness :
    (0xFFF1 : Nat) < 2 ^ 16 ∧ (0x8001 : Nat) < 2 ^ 16 ∧
      (3840 : Nat) < 2 ^ 12 ∧ (20202021 : Nat) < 2 ^ 27 ∧
      ∃ s : List Char,
        generateQrCode 0xFFF1 0x8001 3840 20202021 = ['M', 'T', ':'] ++ s ∧
        20 ≤ s.length ∧
        (∀ c ∈ s, c ∈ base38Chars) ∧
        base38Decode s =
          0 * 2 ^ 81 + 0xFFF1 * 2 ^ 65 + 0x8001 * 2 ^ 49 + 0 * 2 ^ 47 +
            4 * 2 ^ 39 + 3840 * 2 ^ 27 + 20202021 :=
  ⟨by norm_num, by norm_num, by norm_num, by norm_num,
    qr_payload_roundtrip 0xFFF1 0x8001 3840 20202021
      (by norm_num) (by norm_num) (by norm_num) (by norm_num)⟩

theorem decimalDigitsAux_step (v : Nat) (h : v ≠ 0) :
    decimalDigitsAux v =
      decimalDigitsAux (v / 10) ++ [decimalDigitChar (v % 10)] := by
  rw [decimalDigitsAux, dif_neg h]

theorem decimalDigitsAux_zero : decimalDigitsAux 0 = [] := by
  rw [decimalDigitsAux]
  simp

theorem decimalString_example :
    decimalString 20202021 = ['2', '0', '2', '0', '2', '0', '2', '1'] := by
  rw [decimalString, if_neg (by norm_num)]
  rw [decimalDigitsAux_step 20202021 (by norm_num)]
  simp only [Nat.reduceDiv, Nat.reduceMod]
  rw [decimalDigitsAux_step 2020202 (by norm_num)]
  simp only [Nat.reduceDiv, Nat.reduceMod]
  rw [decimalDigitsAux_step 202020 (by norm_num)]
  simp only [Nat.reduceDiv, Nat.reduceMod]
  rw [decimalDigitsAux_step 20202 (by norm_num)]
  simp only [Nat.reduceDiv, Nat.reduceMod]
  rw [decimalDigitsAux_step 2020 (by norm_num)]
  simp only [Nat.reduceDiv, Nat.reduceMod]
  rw [decimalDigitsAux_step 202 (by norm_num)]
  simp only [Nat.reduceDiv, Nat.reduceMod]
  rw [decimalDigitsAux_step 20 (by norm_num)]
  simp only [Nat.reduceDiv, Nat.reduceMod]
  rw [decimalDigitsAux_step 2 (by norm_num)]
  simp only [Nat.reduceDiv, Nat.reduceMod]
  rw [decimalDigitsAux_zero]
  decide

theorem manualPairingCode_example :
    manualPairingCode 20202021 =
      ['0', '0', '0', '2', '-', '0', '2', '0', '-', '2', '0', '2', '1'] := by
  simp only [manualPairingCode, padTo11, decimalString_example]
  decide

/-- C2 counterexample: the claimed concrete example is wrong.  Passcode
20202021 zero-pads to `"00020202021"`, so the code prints
`"0002-020-2021"`, not `"0020-202-0021"`. -/
theorem manual_code_example_refuted :
    manualPairingCode 20202021 ≠
      ['0', '0', '2', '0', '-', '2', '0', '2', '-', '0', '0', '2', '1'] := by
  rw [manualPairingCode_example]
  decide

theorem slice434 (s : List Char) (hlen : s.length = 11) :
    s.take 4 ++ ((s.drop 4).take 3 ++ (s.drop 7).take 4) = s ∧
      (s.take 4).length = 4 ∧ ((s.drop 4).take 3).length = 3 ∧
      ((s.drop 7).take 4).length = 4 := by
  have h74 : (s.drop 7).take 4 = s.drop 7 :=
    List.take_of_length_le (by simp [hlen])
  have h7 : s.drop 7 = (s.drop 4).drop 3 := by
    rw [List.drop_drop]
  refine ⟨?_, ?_, ?_, ?_⟩
  · rw [h74, h7, List.take_append_drop, List.take_append_drop]
  · simp [hlen]
  · simp [hlen]
  · simp [hlen]

/-- C2 (amended): for every passcode below `10^11` the manual pairing
code is the passcode zero-padded to exactly 11 decimal digits, grouped as
4 digits, dash, 3 digits, dash, 4 digits; in particular passcode 20202021
yields `"0002-020-2021"` (the spec's example string `"0020-202-0021"` is
not what the code prints). -/
theorem manual_code_format :
    (∀ pc : Nat, pc < 10 ^ 11 →
      ∃ a b c : List Char,
        manualPairingCode pc = a ++ '-' :: (b ++ '-' :: c) ∧
        a.length = 4 ∧ b.length = 3 ∧ c.length = 4 ∧
        (∀ ch ∈ a ++ (b ++ c), ch.isDigit) ∧
        decimalDecode (a ++ (b ++ c)) = pc) ∧
    manualPairingCode 20202021 =
      ['0', '0', '0', '2', '-', '0', '2', '0', '-', '2', '0', '2', '1'] := by
  constructor
  · intro pc hpc
    have hds : (decimalString pc).length ≤ 11 := by
      rw [decimalString]
      split
      · simp
      · exact decimalDigitsAux_length pc 11 hpc
    have hlen : (padTo11 (decimalString pc)).length = 11 := by
      simp [padTo11]
      omega
    obtain ⟨hcat, hl1, hl2, hl3⟩ := slice434 _ hlen
    have hmem : ∀ ch ∈ padTo11 (decimalString pc), ch.isDigit := by
      intro ch hch
      rw [padTo11, List.mem_append] at hch
      rcases hch with hch | hch
      · rw [List.mem_replicate] at hch
        rw [hch.2]
        decide
      · exact decimalString_isDigit pc ch hch
    have hdec : decimalDecode (padTo11 (decimalString pc)) = pc := by
      rw [padTo11, decimalDecode_replicate_zero, decimalDecode_decimalString]
    refine ⟨_, _, _, rfl, hl1, hl2, hl3, ?_, ?_⟩
    · intro ch hch
      rw [hcat] at hch
      exact hmem ch hch
    · rw [hcat]
      exact hdec
  · exact manualPairingCode_example

theorem manual_code_format_witness :
    (20202021 : Nat) < 10 ^ 11 ∧
      ∃ a b c : List Char,
        manualPairingCode 20202021 = a ++ '-' :: (b ++ '-' :: c) ∧
        a.length = 4 ∧ b.length = 3 ∧ c.length = 4 ∧
        (∀ ch ∈ a ++ (b ++ c), ch.isDigit) ∧
        decimalDecode (a ++ (b ++ c)) = 20202021 :=
  ⟨by norm_num, manual_code_format.1 20202021 (by norm_num)⟩
